import Mathlib

/-!
# Verification of the Blissful in-page automation agent

Shallow embedding of `src/Blissful/static/lidarr-userscript.user.js`
(the Lidarr userscript: metadata cache, row classifier, control
injectors, download orchestrator) together with proofs and refutations
of the specified properties.

Asynchronous functions are split at their `await` points into a
*start* step and a *resume* step acting on explicit state, so that
interleavings of overlapping calls can be expressed.  JSON payloads are
modelled as structures following the microservice interface; a fetch
that rejects (network error, timeout, invalid JSON) is an `Except.error`.
-/

namespace Blissful

/-! ## Data model: album metadata and the single-slot cache

Mirrors lines 292-350 of `lidarr-userscript.user.js`:

```js
let cachedAlbumInfo = null;
let lastAlbumId = null;
```
-/

/-- The metadata value built and cached by `extractAlbumInfo`
(lines 329-334). -/
structure AlbumInfo where
  title : String
  artist : String
  foreignAlbumId : String
  lidarrAlbumId : Option String
deriving Repr, DecidableEq

/-- Parsed JSON payload of `GET /api/album-info/{id}`. -/
structure AlbumInfoPayload where
  success : Bool
  title : String
  artist : String
  foreignAlbumId : String
  lidarrAlbumId : Option String
  error : Option String
deriving Repr, DecidableEq

/-- Outcome of `apiRequest`: the promise resolves with a parsed payload,
or rejects with a message (network error, timeout, invalid JSON). -/
abbrev FetchOutcome := Except String AlbumInfoPayload

/-- The module-level cache variables `cachedAlbumInfo` / `lastAlbumId`. -/
structure CacheState where
  cachedAlbumInfo : Option AlbumInfo
  lastAlbumId : Option String
deriving Repr, DecidableEq

/-- Initial state: both module variables are `null` (lines 293-294). -/
def CacheState.empty : CacheState := ⟨none, none⟩

/-- JavaScript `x || null` on a nullable string: the empty string is
falsy and collapses to `null`. -/
def jsStringOrNull : Option String → Option String
  | some s => if s = "" then none else some s
  | none => none

/-- The `AlbumInfo` object constructed from a successful payload
(lines 329-334): `lidarrAlbumId: result.lidarrAlbumId || null`. -/
def albumInfoOfPayload (p : AlbumInfoPayload) : AlbumInfo :=
  { title := p.title
    artist := p.artist
    foreignAlbumId := p.foreignAlbumId
    lidarrAlbumId := jsStringOrNull p.lidarrAlbumId }

/-- What `extractAlbumInfo` decides before any network activity. -/
inductive StartOutcome
  /-- `getAlbumIdFromUrl()` returned `null`: return `null` (lines 305-308). -/
  | notAlbumPage
  /-- cache hit: return the cached value, no network call (lines 311-314). -/
  | hit (info : AlbumInfo)
  /-- fall through to `await apiRequest('/api/album-info/' + albumId)`. -/
  | fetch (albumId : String)
deriving Repr, DecidableEq

/-- The cache-hit test of line 311:
`if (!forceRefresh && cachedAlbumInfo && lastAlbumId === albumId)`. -/
def cacheHit? (forceRefresh : Bool) (albumId : String) (s : CacheState) :
    Option AlbumInfo :=
  match forceRefresh, s.cachedAlbumInfo with
  | false, some info => if s.lastAlbumId = some albumId then some info else none
  | _, _ => none

/-- `extractAlbumInfo(forceRefresh)` up to the `await` of line 326.
`urlAlbumId` is the result of `getAlbumIdFromUrl()`.  Lines 303-322:
cache-hit check, then `if (lastAlbumId !== albumId) { cachedAlbumInfo =
null; lastAlbumId = albumId; }`, then fall through to the fetch. -/
def extractStart (urlAlbumId : Option String) (forceRefresh : Bool)
    (s : CacheState) : CacheState × StartOutcome :=
  match urlAlbumId with
  | none => (s, .notAlbumPage)
  | some albumId =>
    match cacheHit? forceRefresh albumId s with
    | some info => (s, .hit info)
    | none =>
      if s.lastAlbumId = some albumId then (s, .fetch albumId)
      else ({ cachedAlbumInfo := none, lastAlbumId := some albumId }, .fetch albumId)

/-- `extractAlbumInfo` from the resolution of the `await` onwards
(lines 326-349).  On `result.success` the code runs `cachedAlbumInfo =
albumInfo; return albumInfo` with **no** check that the identifier it
requested still equals `lastAlbumId` or the current URL; on a failure
payload or a rejected promise it returns `null` without touching the
cache variables. -/
def extractResume (resp : FetchOutcome) (s : CacheState) :
    CacheState × Option AlbumInfo :=
  match resp with
  | .ok p =>
    if p.success then
      let info := albumInfoOfPayload p
      ({ s with cachedAlbumInfo := some info }, some info)
    else (s, none)
  | .error _ => (s, none)

/-- One complete, un-interleaved call of `extractAlbumInfo`: the start
step immediately followed by its own resume step.  `resp` is the
outcome the fetch would have, unused when no fetch happens. -/
def atomicGet (urlAlbumId : Option String) (forceRefresh : Bool)
    (s : CacheState) (resp : FetchOutcome) : CacheState × Option AlbumInfo :=
  match extractStart urlAlbumId forceRefresh s with
  | (s', .notAlbumPage) => (s', none)
  | (s', .hit info) => (s', some info)
  | (s', .fetch _) => extractResume resp s'

/-- A fetch outcome the spec counts as a failure: rejected promise
(network error, timeout, malformed JSON) or a payload whose `success`
flag is false. -/
def fetchFailed : FetchOutcome → Prop
  | .error _ => True
  | .ok p => p.success = false

instance : DecidablePred fetchFailed := by
  intro r
  cases r with
  | error e => exact isTrue trivial
  | ok p => exact (inferInstance : Decidable (p.success = false))

/-! ### Cache lemmas -/

/-- After the start step of a call for `id`, `lastAlbumId` is `id`. -/
theorem extractStart_lastAlbumId (id : String) (force : Bool) (s : CacheState) :
    ((extractStart (some id) force s).1).lastAlbumId = some id := by
  unfold extractStart cacheHit?
  rcases force with _ | _ <;> rcases hc : s.cachedAlbumInfo with _ | info <;>
    simp <;> split <;> simp_all

/-- After the start step of a call for `id`, the cached value survives
exactly when `id` was already the last-seen identifier. -/
theorem extractStart_cachedAlbumInfo (id : String) (force : Bool) (s : CacheState) :
    ((extractStart (some id) force s).1).cachedAlbumInfo
      = (if s.lastAlbumId = some id then s.cachedAlbumInfo else none) := by
  unfold extractStart cacheHit?
  rcases force with _ | _ <;> rcases hc : s.cachedAlbumInfo with _ | info <;>
    simp <;> split <;> simp_all

/-- A concrete metadata value used in witnesses. -/
def mW : AlbumInfo :=
  { title := "W", artist := "WA", foreignAlbumId := "fw", lidarrAlbumId := none }

/-- C3: `extractAlbumInfo` with `forceRefresh = false` and a cached entry
for the requested identifier returns it with no fetch and no state
change; and a call for `id2` starting from a state holding `id1`'s
metadata (`id1 ≠ id2`) behaves exactly as from the empty cache — the
stale entry is discarded before fetching, so the call can never return
`id1`'s metadata — and it re-keys the slot to `id2`. -/
theorem cache_correct :
    (∀ (s : CacheState) (id : String) (m : AlbumInfo),
        s.cachedAlbumInfo = some m → s.lastAlbumId = some id →
        extractStart (some id) false s = (s, .hit m)) ∧
    (∀ (id1 id2 : String) (m1 : AlbumInfo) (resp : FetchOutcome), id1 ≠ id2 →
        atomicGet (some id2) false ⟨some m1, some id1⟩ resp
          = atomicGet (some id2) false CacheState.empty resp ∧
        (atomicGet (some id2) false ⟨some m1, some id1⟩ resp).1.lastAlbumId
          = some id2) := by
  constructor
  · intro s id m h1 h2
    simp [extractStart, cacheHit?, h1, h2]
  · intro id1 id2 m1 resp h
    constructor
    · simp [atomicGet, extractStart, cacheHit?, h, CacheState.empty]
    · rcases resp with e | p <;>
        simp [atomicGet, extractStart, cacheHit?, h, extractResume] <;> split <;> simp

/-- Witness for `cache_correct` at concrete inputs. -/
theorem cache_correct_witness :
    extractStart (some "a1") false ⟨some mW, some "a1"⟩
      = (⟨some mW, some "a1"⟩, .hit mW) ∧
    atomicGet (some "a2") false ⟨some mW, some "a1"⟩ (.error "Network error")
      = atomicGet (some "a2") false CacheState.empty (.error "Network error") :=
  ⟨cache_correct.1 ⟨some mW, some "a1"⟩ "a1" mW rfl rfl,
   (cache_correct.2 "a1" "a2" mW (.error "Network error") (by decide)).1⟩

/-- C4 counterexample: a forced refresh for the identifier already
cached whose fetch fails returns `null` but does **not** leave the
cache empty — `cachedAlbumInfo` still holds the old value (the reset of
lines 317-320 only runs when the identifier changed, and the failure
branches of lines 341-349 never clear the cache). -/
theorem failedForcedRefresh_keepsCache :
    (extractStart (some "a1") true ⟨some mW, some "a1"⟩).2 = .fetch "a1" ∧
    (atomicGet (some "a1") true ⟨some mW, some "a1"⟩ (.error "Network error")).2
      = none ∧
    (atomicGet (some "a1") true ⟨some mW, some "a1"⟩
        (.error "Network error")).1.cachedAlbumInfo = some mW := by
  refine ⟨rfl, rfl, rfl⟩

/-- C4 as amended: a call of `extractAlbumInfo` that reaches the fetch
and whose fetch fails returns `null`; the cache slot is left empty when
the requested identifier differs from the last-seen one, but a value
cached under the same identifier (the forced-refresh case) survives the
failed call. -/
theorem cache_failure_returns_null (id : String) (force : Bool)
    (s : CacheState) (resp : FetchOutcome)
    (hfetch : (extractStart (some id) force s).2 = .fetch id)
    (hfail : fetchFailed resp) :
    (atomicGet (some id) force s resp).2 = none ∧
    (atomicGet (some id) force s resp).1.cachedAlbumInfo
      = (if s.lastAlbumId = some id then s.cachedAlbumInfo else none) := by
  have hs := extractStart_cachedAlbumInfo id force s
  rcases h : extractStart (some id) force s with ⟨s', o⟩
  rw [h] at hfetch hs
  simp at hfetch hs
  subst hfetch
  rcases resp with e | p
  · simp [atomicGet, h, extractResume, hs]
  · have hps : p.success = false := hfail
    simp [atomicGet, h, extractResume, hps, hs]

/-- Witness for `cache_failure_returns_null` at a concrete failing call. -/
theorem cache_failure_returns_null_witness :
    (atomicGet (some "a2") false ⟨some mW, some "a1"⟩ (.error "timeout")).2
        = none ∧
    (atomicGet (some "a2") false ⟨some mW, some "a1"⟩
        (.error "timeout")).1.cachedAlbumInfo
      = (if (⟨some mW, some "a1"⟩ : CacheState).lastAlbumId = some "a2"
          then (⟨some mW, some "a1"⟩ : CacheState).cachedAlbumInfo else none) :=
  cache_failure_returns_null "a2" false ⟨some mW, some "a1"⟩ (.error "timeout")
    (by decide) trivial

/-! ### C1: the late-response pollution run

The spec requires the cache to re-validate, at write time, that the
identifier it fetched for still equals the current identifier.
`extractResume` (the code after the `await` of line 326) performs no
such check: it assigns `cachedAlbumInfo` unconditionally.  The
following concrete run exhibits the pollution. -/

/-- The (successful) payload of the slow fetch for `"id1"`. -/
def lateResponsePayload : AlbumInfoPayload :=
  { success := true, title := "Album One", artist := "Artist One",
    foreignAlbumId := "fa-1", lidarrAlbumId := none, error := none }

/-- State after a scan on the `"id1"` page starts a fetch (still in
flight) from the empty cache. -/
def pollutionS1 : CacheState := (extractStart (some "id1") false CacheState.empty).1

/-- State after navigation to `"id2"` and a scan there starts its own
fetch, while `"id1"`'s fetch is still outstanding. -/
def pollutionS2 : CacheState := (extractStart (some "id2") false pollutionS1).1

/-- State after `"id1"`'s fetch finally resolves successfully and its
resume step runs. -/
def pollutionS3 : CacheState := (extractResume (.ok lateResponsePayload) pollutionS2).1

/-- C1 (refuting run): a fetch initiated for `"id1"` resolves after the
current identifier has become `"id2"`; its value is accepted into the
cache unchecked, and the next `get("id2", false)` observes `"id1"`'s
metadata as a cache hit — exactly what the claim says can never
happen. -/
theorem staleResponse_pollution :
    (extractStart (some "id1") false CacheState.empty).2 = .fetch "id1" ∧
    (extractStart (some "id2") false pollutionS1).2 = .fetch "id2" ∧
    pollutionS3.lastAlbumId = some "id2" ∧
    (extractResume (.ok lateResponsePayload) pollutionS2).2
      = some (albumInfoOfPayload lateResponsePayload) ∧
    (extractStart (some "id2") false pollutionS3).2
      = .hit (albumInfoOfPayload lateResponsePayload) :=
  ⟨rfl, rfl, rfl, rfl, rfl⟩

/-! ## RowClassifier: list-page missing detection

Mirrors lines 394-411 of `injectAlbumIcons`:

```js
if (isWantedMissingPage) {
    hasMissing = !!row.querySelector('a[href*="/album/"]');
} else {
    const statusLabel = row.querySelector('[class*="Label"]');
    hasMissing = statusLabel && statusLabel.textContent.match(/0\s*\/\s*\d+/);
}
```
-/

/-- Tail stage of the regex `/0\s*\/\s*\d+/`: after the slash, skip
whitespace and require at least one digit. -/
def matchAfterSlash (r2 : List Char) : Bool :=
  match r2.dropWhile Char.isWhitespace with
  | c :: _ => c.isDigit
  | [] => false

/-- Middle stage: after the `'0'`, skip whitespace and require a
`'/'`. -/
def matchAfterZero (rest : List Char) : Bool :=
  match rest.dropWhile Char.isWhitespace with
  | c1 :: r2 => c1 = '/' && matchAfterSlash r2
  | [] => false

/-- The deterministic matcher for the regex `/0\s*\/\s*\d+/` anchored at
the head of the character list: a literal `'0'`, any run of whitespace,
`'/'`, any run of whitespace, at least one digit.  The greedy `\s*`
needs no backtracking because neither `'/'` nor a digit is
whitespace. -/
def matchZeroFrom (l : List Char) : Bool :=
  match l with
  | c0 :: rest => c0 = '0' && matchAfterZero rest
  | [] => false

/-- Unanchored search, as JavaScript `String.prototype.match` performs:
try the pattern at every position. -/
def searchZeroSlashN : List Char → Bool
  | [] => false
  | c :: rest => matchZeroFrom (c :: rest) || searchZeroSlashN rest

/-- `text.match(/0\s*\/\s*\d+/)` is truthy. -/
def containsZeroSlashN (t : String) : Bool := searchZeroSlashN t.data

/-- One `AlbumSearchCell` together with the row context the injector
reads through it (`cell.closest('tr')` and the row queries). -/
structure AlbumSearchCell where
  /-- number of `.blissful-album-icon` children of the cell. -/
  blissfulIcons : Nat
  /-- `cell.closest('tr')` found a row. -/
  hasParentRow : Bool
  /-- `textContent` of `row.querySelector('[class*="Label"]')`, if any. -/
  statusLabelText : Option String
  /-- `(textContent.trim(), href)` of `row.querySelector('a[href*="/album/"]')`. -/
  albumLink : Option (String × String)
  /-- trimmed text of `row.querySelector('a[href*="/artist/"]')`, if any. -/
  artistLinkText : Option String
deriving Repr, DecidableEq

/-- The missing test of lines 394-406: on the wanted/missing page every
row with an album link is missing; on an artist page the status label
must match the (unanchored) `0 / N` regex. -/
def albumRowMissing (isWantedMissingPage : Bool) (c : AlbumSearchCell) : Bool :=
  if isWantedMissingPage then c.albumLink.isSome
  else
    match c.statusLabelText with
    | some t => containsZeroSlashN t
    | none => false

/-- Strip leading and trailing whitespace from a character list. -/
def trimChars (l : List Char) : List Char :=
  ((l.dropWhile Char.isWhitespace).reverse.dropWhile Char.isWhitespace).reverse

/-- Modelled from the spec: a status label stating that **zero** of N
units are present, i.e. the whole (trimmed) label reads `0 / N` — the
count before the slash is the number 0. -/
def labelStatesZeroOfN (t : String) : Bool :=
  match trimChars t.data with
  | '0' :: rest =>
    match rest.dropWhile Char.isWhitespace with
    | '/' :: r2 =>
      let r3 := r2.dropWhile Char.isWhitespace
      !r3.isEmpty && r3.all Char.isDigit
    | _ => false
  | _ => false

/-- Declarative reading of the amended claim: the label text contains,
anywhere, the substring `0`, optional whitespace, `/`, optional
whitespace, a digit. -/
def ContainsZeroOfNSub (t : String) : Prop :=
  ∃ (pre ws1 ws2 post : List Char) (d : Char),
    t.data = pre ++ '0' :: (ws1 ++ '/' :: (ws2 ++ d :: post)) ∧
    (∀ c ∈ ws1, c.isWhitespace = true) ∧
    (∀ c ∈ ws2, c.isWhitespace = true) ∧
    d.isDigit = true

/-- A digit character is not whitespace. -/
theorem isDigit_isWhitespace_false (c : Char) (h : c.isDigit = true) :
    c.isWhitespace = false := by
  by_contra hw
  rw [Bool.not_eq_false] at hw
  simp only [Char.isWhitespace, Bool.or_eq_true, decide_eq_true_eq] at hw
  rcases hw with ((h' | h') | h') | h' <;> subst h' <;> exact absurd h (by decide)

/-- Dropping a whitespace prefix from a list known to decompose as
`ws ++ x :: xs` with `ws` all-whitespace and `x` not whitespace yields
exactly `x :: xs`. -/
theorem dropWhile_all_append (p : Char → Bool) (ws : List Char) (x : Char)
    (xs : List Char) (hws : ∀ c ∈ ws, p c = true) (hx : p x = false) :
    (ws ++ x :: xs).dropWhile p = x :: xs := by
  induction ws with
  | nil => simp [List.dropWhile_cons, hx]
  | cons a t ih =>
    have ha : p a = true := hws a (by simp)
    simp only [List.cons_append, List.dropWhile_cons, ha, if_true]
    exact ih fun c hc => hws c (by simp [hc])

/-- Conversely, a successful `dropWhile` exhibits the all-satisfying
prefix. -/
theorem exists_of_dropWhile_cons (p : Char → Bool) (l : List Char) (x : Char)
    (xs : List Char) (h : l.dropWhile p = x :: xs) :
    ∃ ws, l = ws ++ x :: xs ∧ ∀ c ∈ ws, p c = true := by
  refine ⟨l.takeWhile p, ?_, ?_⟩
  · rw [← h, List.takeWhile_append_dropWhile]
  · intro c hc
    exact List.mem_takeWhile_imp hc

theorem matchAfterSlash_iff (r2 : List Char) :
    matchAfterSlash r2 = true ↔
      ∃ (ws2 post : List Char) (d : Char),
        r2 = ws2 ++ d :: post ∧ (∀ c ∈ ws2, c.isWhitespace = true) ∧
        d.isDigit = true := by
  constructor
  · intro h
    unfold matchAfterSlash at h
    rcases h1 : r2.dropWhile Char.isWhitespace with _ | ⟨c, tail⟩
    · rw [h1] at h
      exact absurd h (by simp)
    · rw [h1] at h
      obtain ⟨ws, hws, hall⟩ := exists_of_dropWhile_cons _ _ _ _ h1
      exact ⟨ws, tail, c, hws, hall, h⟩
  · rintro ⟨ws2, post, d, rfl, hws, hd⟩
    unfold matchAfterSlash
    rw [dropWhile_all_append _ _ _ _ hws (isDigit_isWhitespace_false d hd)]
    exact hd

theorem matchAfterZero_iff (rest : List Char) :
    matchAfterZero rest = true ↔
      ∃ (ws1 ws2 post : List Char) (d : Char),
        rest = ws1 ++ '/' :: (ws2 ++ d :: post) ∧
        (∀ c ∈ ws1, c.isWhitespace = true) ∧
        (∀ c ∈ ws2, c.isWhitespace = true) ∧ d.isDigit = true := by
  constructor
  · intro h
    unfold matchAfterZero at h
    rcases h1 : rest.dropWhile Char.isWhitespace with _ | ⟨c1, r2⟩
    · rw [h1] at h
      exact absurd h (by simp)
    · rw [h1] at h
      simp only [Bool.and_eq_true, decide_eq_true_eq] at h
      obtain ⟨hc1, hm⟩ := h
      subst hc1
      obtain ⟨ws1, hws1, hall1⟩ := exists_of_dropWhile_cons _ _ _ _ h1
      obtain ⟨ws2, post, d, rfl, hall2, hd⟩ := (matchAfterSlash_iff r2).mp hm
      exact ⟨ws1, ws2, post, d, hws1, hall1, hall2, hd⟩
  · rintro ⟨ws1, ws2, post, d, rfl, h1, h2, hd⟩
    unfold matchAfterZero
    rw [dropWhile_all_append _ _ _ _ h1 (by decide)]
    simp only [Bool.and_eq_true, decide_eq_true_eq]
    exact ⟨by trivial, (matchAfterSlash_iff _).mpr ⟨ws2, post, d, rfl, h2, hd⟩⟩

theorem matchZeroFrom_iff (l : List Char) :
    matchZeroFrom l = true ↔
      ∃ (ws1 ws2 post : List Char) (d : Char),
        l = '0' :: (ws1 ++ '/' :: (ws2 ++ d :: post)) ∧
        (∀ c ∈ ws1, c.isWhitespace = true) ∧
        (∀ c ∈ ws2, c.isWhitespace = true) ∧ d.isDigit = true := by
  rcases l with _ | ⟨c0, rest⟩
  · simp [matchZeroFrom]
  · simp only [matchZeroFrom, Bool.and_eq_true, decide_eq_true_eq]
    constructor
    · rintro ⟨rfl, hm⟩
      obtain ⟨ws1, ws2, post, d, rfl, h1, h2, hd⟩ := (matchAfterZero_iff rest).mp hm
      exact ⟨ws1, ws2, post, d, rfl, h1, h2, hd⟩
    · rintro ⟨ws1, ws2, post, d, heq, h1, h2, hd⟩
      rw [List.cons_eq_cons] at heq
      obtain ⟨rfl, rfl⟩ := heq
      exact ⟨rfl, (matchAfterZero_iff _).mpr ⟨ws1, ws2, post, d, rfl, h1, h2, hd⟩⟩

theorem searchZeroSlashN_iff (l : List Char) :
    searchZeroSlashN l = true ↔
      ∃ pre suf, l = pre ++ suf ∧ matchZeroFrom suf = true := by
  induction l with
  | nil =>
    simp only [searchZeroSlashN]
    constructor
    · intro h
      exact absurd h (by simp)
    · rintro ⟨pre, suf, heq, hm⟩
      rcases List.append_eq_nil.mp heq.symm with ⟨rfl, rfl⟩
      exact absurd hm (by simp [matchZeroFrom])
  | cons c rest ih =>
    simp only [searchZeroSlashN, Bool.or_eq_true]
    constructor
    · rintro (h | h)
      · exact ⟨[], c :: rest, rfl, h⟩
      · obtain ⟨pre, suf, rfl, hm⟩ := ih.mp h
        exact ⟨c :: pre, suf, rfl, hm⟩
    · rintro ⟨pre, suf, heq, hm⟩
      rcases pre with _ | ⟨a, pre'⟩
      · simp only [List.nil_append] at heq
        exact Or.inl (heq ▸ hm)
      · rw [List.cons_append, List.cons_eq_cons] at heq
        obtain ⟨rfl, rfl⟩ := heq
        exact Or.inr (ih.mpr ⟨pre', suf, rfl, hm⟩)

/-- The code's matcher agrees with the declarative substring reading. -/
theorem containsZeroSlashN_iff (t : String) :
    containsZeroSlashN t = true ↔ ContainsZeroOfNSub t := by
  unfold containsZeroSlashN ContainsZeroOfNSub
  rw [searchZeroSlashN_iff]
  constructor
  · rintro ⟨pre, suf, heq, hm⟩
    obtain ⟨ws1, ws2, post, d, rfl, h1, h2, hd⟩ := (matchZeroFrom_iff suf).mp hm
    exact ⟨pre, ws1, ws2, post, d, heq, h1, h2, hd⟩
  · rintro ⟨pre, ws1, ws2, post, d, heq, h1, h2, hd⟩
    exact ⟨pre, _, heq,
      (matchZeroFrom_iff _).mpr ⟨ws1, ws2, post, d, rfl, h1, h2, hd⟩⟩

/-- A concrete artist-page cell whose status label reads `10 / 12`
(ten of twelve tracks present). -/
def cellTenOfTwelve : AlbumSearchCell :=
  { blissfulIcons := 0, hasParentRow := true,
    statusLabelText := some "10 / 12",
    albumLink := some ("Some Album", "/album/abc"), artistLinkText := none }

/-- C5 counterexample: a row whose status label reads `10 / 12` — ten
of twelve units present, not zero — is nevertheless flagged missing,
because the regex of line 405 is unanchored and matches the `0 / 12`
inside `10 / 12`.  The claimed equivalence with "zero of N units are
present" fails at this row. -/
theorem tenOfTwelve_flagged_missing :
    albumRowMissing false cellTenOfTwelve = true ∧
    labelStatesZeroOfN "10 / 12" = false := by
  refine ⟨by decide, by decide⟩

/-- C5 as amended: on the wanted/missing listing a row is flagged
missing iff it has a detail-page link, the status label never being
consulted; on an artist list page a row with a status label is flagged
missing iff the label text **contains** (anywhere) the pattern `0`,
whitespace, `/`, whitespace, digit — a substring match, so labels such
as `10 / 12` are also flagged — and a row without a status label is
never flagged. -/
theorem listPage_missing_classification :
    (∀ c : AlbumSearchCell, albumRowMissing true c = c.albumLink.isSome) ∧
    (∀ (c : AlbumSearchCell) (t : String), c.statusLabelText = some t →
        (albumRowMissing false c = true ↔ ContainsZeroOfNSub t)) ∧
    (∀ c : AlbumSearchCell, c.statusLabelText = none →
        albumRowMissing false c = false) := by
  refine ⟨fun c => rfl, ?_, ?_⟩
  · intro c t h
    simp [albumRowMissing, h, containsZeroSlashN_iff]
  · intro c h
    simp [albumRowMissing, h]

/-- A concrete artist-page cell whose status label reads `0 / 5`
(Scenario A of the spec). -/
def cellZeroOfFive : AlbumSearchCell :=
  { blissfulIcons := 0, hasParentRow := true,
    statusLabelText := some "0 / 5",
    albumLink := some ("Some Album", "/album/abc"),
    artistLinkText := some "Some Artist" }

/-- Witness for `listPage_missing_classification` at Scenario A. -/
theorem listPage_missing_classification_witness :
    ContainsZeroOfNSub "0 / 5" :=
  (listPage_missing_classification.2.1 cellZeroOfFive "0 / 5" rfl).mp (by decide)

/-! ## ControlInjector

`injectAlbumIcons` (lines 352-483) iterates over all
`AlbumSearchCell`s; `injectTrackActionIcons` (lines 486-643) iterates
over all `TrackActionsCell`s.  Both skip a cell that already contains a
control carrying the dedicated marker class (`.blissful-album-icon`
resp. `.blissful-track-action-icon`) and otherwise, for a qualifying
row, append exactly one marker-carrying button to the cell — the only
mutation the injection pass performs. -/

/-- One pass of `injectAlbumIcons` over a single cell (lines 375-480);
the returned flag records whether an icon was appended.  The appended
button carries class `blissful-album-icon`, so it raises
`blissfulIcons`. -/
def injectAlbumCell (isWantedMissingPage : Bool) (c : AlbumSearchCell) :
    AlbumSearchCell × Bool :=
  if c.blissfulIcons ≠ 0 then (c, false)
  else if c.hasParentRow = false then (c, false)
  else if albumRowMissing isWantedMissingPage c = false then (c, false)
  else
    match c.albumLink with
    | none => (c, false)
    | some _ => ({ c with blissfulIcons := c.blissfulIcons + 1 }, true)

/-- The full injection pass of `injectAlbumIcons`: `cells.forEach`. -/
def injectAlbumIcons (isWantedMissingPage : Bool)
    (dom : List AlbumSearchCell) : List AlbumSearchCell :=
  dom.map fun c => (injectAlbumCell isWantedMissingPage c).1

/-- A row qualifies for an album control: it has a parent row,
classifies as missing, and carries an album link. -/
def albumCellQualifies (isWantedMissingPage : Bool) (c : AlbumSearchCell) :
    Bool :=
  c.hasParentRow && albumRowMissing isWantedMissingPage c && c.albumLink.isSome

/-- One `TrackActionsCell` with the row context the detail-page
injector reads through it. -/
structure TrackActionCell where
  /-- number of `.blissful-track-action-icon` children of the cell. -/
  blissfulIcons : Nat
  /-- `cell.closest('tr')` found a row. -/
  hasParentRow : Bool
  /-- the row has a `TrackRow-status` cell containing
  `[data-icon="triangle-exclamation"]`. -/
  hasWarningIcon : Bool
  /-- `textContent` of the `TrackRow-title` cell, if present. -/
  titleText : Option String
  /-- trimmed text of the `TrackRow-trackNumber` cell, if present. -/
  trackNumText : Option String
deriving Repr, DecidableEq

/-- JavaScript `text.trim()` is non-empty. -/
def jsTrimmedNonempty (t : String) : Bool := !(trimChars t.data).isEmpty

/-- One pass of `injectTrackActionIcons` over a single cell
(lines 515-639). -/
def injectTrackCell (c : TrackActionCell) : TrackActionCell × Bool :=
  if c.blissfulIcons ≠ 0 then (c, false)
  else if c.hasParentRow = false then (c, false)
  else if c.hasWarningIcon = false then (c, false)
  else
    match c.titleText with
    | none => (c, false)
    | some t =>
      if jsTrimmedNonempty t = false then (c, false)
      else ({ c with blissfulIcons := c.blissfulIcons + 1 }, true)

/-- The full detail-page injection pass: it first awaits
`extractAlbumInfo()` and is a deliberate no-op when that returned
`null` (lines 491-495); otherwise it maps over all cells. -/
def injectTrackActionIcons (albumInfo : Option AlbumInfo)
    (dom : List TrackActionCell) : List TrackActionCell :=
  match albumInfo with
  | none => dom
  | some _ => dom.map fun c => (injectTrackCell c).1

/-- A detail-page row qualifies for a control: parent row, warning icon
in the status cell, non-empty trimmed title. -/
def trackCellQualifies (c : TrackActionCell) : Bool :=
  c.hasParentRow && c.hasWarningIcon &&
    (match c.titleText with
     | some t => jsTrimmedNonempty t
     | none => false)

/-! ### Injector lemmas -/

/-- Each album-cell pass either leaves the cell unchanged or appends
exactly one marker-carrying control to a previously unmarked cell. -/
theorem injectAlbumCell_shape (p : Bool) (c : AlbumSearchCell) :
    injectAlbumCell p c = (c, false) ∨
      (c.blissfulIcons = 0 ∧
        injectAlbumCell p c = ({ c with blissfulIcons := 1 }, true)) := by
  unfold injectAlbumCell
  by_cases h0 : c.blissfulIcons = 0
  · rcases hr : c.hasParentRow with _ | _ <;>
      rcases hm : albumRowMissing p c with _ | _ <;>
      rcases hl : c.albumLink with _ | l <;>
      simp [h0, hr, hm, hl]
  · simp [h0]

/-- Same shape property for a track-cell pass. -/
theorem injectTrackCell_shape (c : TrackActionCell) :
    injectTrackCell c = (c, false) ∨
      (c.blissfulIcons = 0 ∧
        injectTrackCell c = ({ c with blissfulIcons := 1 }, true)) := by
  unfold injectTrackCell
  by_cases h0 : c.blissfulIcons = 0
  · rcases hr : c.hasParentRow with _ | _ <;>
      rcases hw : c.hasWarningIcon with _ | _ <;>
      rcases ht : c.titleText with _ | t <;>
      simp [h0, hr, hw, ht] <;>
      rcases he : jsTrimmedNonempty t with _ | _ <;> simp [he]
  · simp [h0]

/-- A marked album cell is skipped untouched. -/
theorem injectAlbumCell_marked (p : Bool) (c : AlbumSearchCell)
    (h : c.blissfulIcons ≠ 0) : injectAlbumCell p c = (c, false) := by
  simp [injectAlbumCell, h]

/-- A marked track cell is skipped untouched. -/
theorem injectTrackCell_marked (c : TrackActionCell)
    (h : c.blissfulIcons ≠ 0) : injectTrackCell c = (c, false) := by
  simp [injectTrackCell, h]

/-- A second album-cell pass changes nothing. -/
theorem injectAlbumCell_idem (p : Bool) (c : AlbumSearchCell) :
    (injectAlbumCell p ((injectAlbumCell p c).1)).1 = (injectAlbumCell p c).1 := by
  rcases injectAlbumCell_shape p c with h | ⟨h0, h⟩
  · rw [h]
    rw [h]
  · rw [h]
    rw [injectAlbumCell_marked p _ (by simp)]

/-- A second track-cell pass changes nothing. -/
theorem injectTrackCell_idem (c : TrackActionCell) :
    (injectTrackCell ((injectTrackCell c).1)).1 = (injectTrackCell c).1 := by
  rcases injectTrackCell_shape c with h | ⟨h0, h⟩
  · rw [h]
    rw [h]
  · rw [h]
    rw [injectTrackCell_marked _ (by simp)]

/-- Control count of an initially unmarked album cell after one pass. -/
theorem injectAlbumCell_count (p : Bool) (c : AlbumSearchCell)
    (h0 : c.blissfulIcons = 0) :
    ((injectAlbumCell p c).1).blissfulIcons
      = (if albumCellQualifies p c then 1 else 0) := by
  unfold injectAlbumCell albumCellQualifies
  rcases hr : c.hasParentRow with _ | _ <;>
    rcases hm : albumRowMissing p c with _ | _ <;>
    rcases hl : c.albumLink with _ | l <;>
    simp [h0, hr, hm, hl]

/-- Control count of an initially unmarked track cell after one pass. -/
theorem injectTrackCell_count (c : TrackActionCell)
    (h0 : c.blissfulIcons = 0) :
    ((injectTrackCell c).1).blissfulIcons
      = (if trackCellQualifies c then 1 else 0) := by
  unfold injectTrackCell trackCellQualifies
  rcases hr : c.hasParentRow with _ | _ <;>
    rcases hw : c.hasWarningIcon with _ | _ <;>
    rcases ht : c.titleText with _ | t <;>
    simp [h0, hr, hw, ht] <;>
    rcases he : jsTrimmedNonempty t with _ | _ <;> simp [he, h0]

/-- C2: both injection passes are idempotent.  A cell whose action cell
already carries the marker class is skipped with no mutation; running a
pass twice over an unchanged DOM equals running it once; and starting
from a DOM with no injected controls, a cell ends with exactly one
control iff its row qualifies, even after a repeated pass. -/
theorem injector_idempotent :
    (∀ (p : Bool) (c : AlbumSearchCell), c.blissfulIcons ≠ 0 →
        injectAlbumCell p c = (c, false)) ∧
    (∀ (p : Bool) (dom : List AlbumSearchCell),
        injectAlbumIcons p (injectAlbumIcons p dom) = injectAlbumIcons p dom) ∧
    (∀ (p : Bool) (c : AlbumSearchCell), c.blissfulIcons = 0 →
        ((injectAlbumCell p ((injectAlbumCell p c).1)).1).blissfulIcons
          = (if albumCellQualifies p c then 1 else 0)) ∧
    (∀ c : TrackActionCell, c.blissfulIcons ≠ 0 →
        injectTrackCell c = (c, false)) ∧
    (∀ (ai : Option AlbumInfo) (dom : List TrackActionCell),
        injectTrackActionIcons ai (injectTrackActionIcons ai dom)
          = injectTrackActionIcons ai dom) ∧
    (∀ c : TrackActionCell, c.blissfulIcons = 0 →
        ((injectTrackCell ((injectTrackCell c).1)).1).blissfulIcons
          = (if trackCellQualifies c then 1 else 0)) := by
  refine ⟨injectAlbumCell_marked, ?_, ?_, injectTrackCell_marked, ?_, ?_⟩
  · intro p dom
    induction dom with
    | nil => rfl
    | cons c t ih =>
      simp only [injectAlbumIcons, List.map_cons] at ih ⊢
      rw [injectAlbumCell_idem]
      exact congrArg _ ih
  · intro p c h0
    rw [injectAlbumCell_idem]
    exact injectAlbumCell_count p c h0
  · intro ai dom
    rcases ai with _ | info
    · rfl
    · simp only [injectTrackActionIcons]
      induction dom with
      | nil => rfl
      | cons c t ih =>
        simp only [List.map_cons] at ih ⊢
        rw [injectTrackCell_idem]
        exact congrArg _ ih
  · intro c h0
    rw [injectTrackCell_idem]
    exact injectTrackCell_count c h0

/-- Witness for `injector_idempotent`: a cell already carrying a
control is left untouched, and an unmarked qualifying cell ends with
exactly one control after two passes. -/
theorem injector_idempotent_witness :
    injectAlbumCell false { cellZeroOfFive with blissfulIcons := 1 }
      = ({ cellZeroOfFive with blissfulIcons := 1 }, false) ∧
    ((injectAlbumCell false ((injectAlbumCell false cellZeroOfFive).1)).1).blissfulIcons
      = (if albumCellQualifies false cellZeroOfFive then 1 else 0) :=
  ⟨injector_idempotent.1 false _ (by decide),
   injector_idempotent.2.2.1 false cellZeroOfFive rfl⟩

/-! ## Notifications

`showNotification(message, type)` (lines 77-112) appends a transient
toast of one of four colour-coded kinds; we record the emission
requests (the global `showNotifications` toggle is configuration glue
outside the core). -/

/-- The four notification kinds of the `colors` table (lines 97-102). -/
inductive NotifKind
  | success
  | error
  | info
  | warning
deriving Repr, DecidableEq

/-- One `showNotification` emission. -/
structure Notification where
  message : String
  kind : NotifKind
deriving Repr, DecidableEq

/-! ## C10: the album-icon click handler (lines 462-474)

```js
iconButton.addEventListener('click', async (e) => {
    e.preventDefault(); e.stopPropagation();
    showNotification(`Album download coming soon! ...`, 'info');
    setTimeout(() => { window.location.href = albumUrl; }, 1500);
});
```
-/

/-- External effects of one activation of an album-list control. -/
structure AlbumClickEffects where
  notifications : List Notification
  /-- microservice endpoints called by the handler. -/
  apiCalls : List String
  /-- deferred navigation: target href and delay in milliseconds. -/
  navigation : Option (String × Nat)
deriving Repr, DecidableEq

/-- The message of line 467. -/
def albumComingSoonMsg : String :=
  "Album download coming soon! For now, visit the album page to download individual tracks."

/-- The album-icon click handler: no request, one informational
notification, navigation to the album page after 1500 ms; the cell
(and the control in it) is not mutated. -/
def albumIconClick (cell : AlbumSearchCell) (albumUrl : String) :
    AlbumSearchCell × AlbumClickEffects :=
  (cell,
    { notifications := [{ message := albumComingSoonMsg, kind := .info }]
      apiCalls := []
      navigation := some (albumUrl, 1500) })

/-- C10: activating a list-page control issues no download request: the
handler calls no microservice endpoint, emits exactly one informational
notification, schedules navigation to the album detail page after a
fixed 1500 ms delay, and leaves the cell (hence every control state in
it) unchanged. -/
theorem albumIconClick_no_download (c : AlbumSearchCell) (url : String) :
    (albumIconClick c url).2.apiCalls = [] ∧
    (albumIconClick c url).2.notifications
      = [{ message := albumComingSoonMsg, kind := .info }] ∧
    (albumIconClick c url).2.navigation = some (url, 1500) ∧
    (albumIconClick c url).1 = c :=
  ⟨rfl, rfl, rfl, rfl⟩

/-! ## The track control and its state machine

The injected track button (lines 566-586) and its click handler
(lines 598-634), abstracted over the presentation fields the handler
actually writes. -/

/-- The glyph shown by `iconButton.innerHTML`. -/
inductive Glyph
  /-- `'🎵'`: the freshly injected control. -/
  | note
  /-- `'⏳'`: request in flight. -/
  | hourglass
  /-- `'✓'`: download succeeded. -/
  | check
  /-- `'✗'`: download failed. -/
  | cross
deriving Repr, DecidableEq

/-- The mutable presentation/interaction state of one injected
control. -/
structure ControlButton where
  glyph : Glyph
  disabled : Bool
  /-- `iconButton.remove()` has run. -/
  removed : Bool
  background : Option String
  cursor : String
deriving Repr, DecidableEq

/-- The track button as constructed by `injectTrackActionIcons`
(lines 566-586): music-note glyph, enabled, pointer cursor. -/
def newTrackButton : ControlButton :=
  { glyph := .note, disabled := false, removed := false,
    background := none, cursor := "pointer" }

/-- Handler mutations before the `await` (lines 602-604):
`innerHTML = '⏳'; cursor = 'wait'; disabled = true`. -/
def clickStart (b : ControlButton) : ControlButton :=
  { b with glyph := .hourglass, cursor := "wait", disabled := true }

/-- Handler mutations after `downloadTrack` resolves (lines 618-633):
on success `'✓'` on green (removal scheduled separately); on failure
`'✗'` on red, pointer cursor, re-enabled. -/
def clickResume (success : Bool) (b : ControlButton) : ControlButton :=
  if success then { b with glyph := .check, background := some "#10b981" }
  else { b with glyph := .cross, background := some "#ef4444",
                cursor := "pointer", disabled := false }

/-- The 2000 ms timer of lines 625-627: `iconButton.remove()`. -/
def graceRemove (b : ControlButton) : ControlButton := { b with removed := true }

/-- Idle: attached and clickable. -/
def ControlButton.isIdle (b : ControlButton) : Prop :=
  b.disabled = false ∧ b.removed = false

/-- Pending: request in flight, control disabled. -/
def ControlButton.isPending (b : ControlButton) : Prop :=
  b.glyph = .hourglass ∧ b.disabled = true ∧ b.removed = false

/-- Success: checkmark shown, not yet removed. -/
def ControlButton.isOk (b : ControlButton) : Prop :=
  b.glyph = .check ∧ b.removed = false

/-- Events delivered to one control. -/
inductive CEvent
  /-- a user click on the button. -/
  | click
  /-- the awaited `downloadTrack` resolves with the given success
  flag. -/
  | resolve (success : Bool)
  /-- the 2000 ms grace timer fires. -/
  | grace
deriving Repr, DecidableEq

/-- Labelled transitions of one control, read off the handler: a click
is delivered only to an enabled, attached button (a disabled button
fires no click events); the `await`ed download resolves while the
button is in the pending presentation the same handler set just before
the `await` (nothing else writes the button in between); the grace
timer exists only once the success branch has shown the checkmark. -/
inductive ControlStep : ControlButton → CEvent → ControlButton → Prop
  | click (b : ControlButton) (h₁ : b.disabled = false) (h₂ : b.removed = false) :
      ControlStep b .click (clickStart b)
  | resolve (b : ControlButton) (s : Bool) (h₁ : b.glyph = .hourglass)
      (h₂ : b.disabled = true) (h₃ : b.removed = false) :
      ControlStep b (.resolve s) (clickResume s b)
  | grace (b : ControlButton) (h₁ : b.glyph = .check) (h₂ : b.removed = false) :
      ControlStep b .grace (graceRemove b)

/-- C6: the control state machine.  A fresh control is Idle; a click
moves Idle to Pending and Pending states are disabled (no click is
accepted while Pending — the guard against double submission); from
Pending a successful resolution reaches Success and a failed one
returns to a re-clickable Idle; the grace timer removes a Success
control; and no transition reaches Pending except a click from Idle,
nor Success except a resolution from Pending. -/
theorem control_state_machine :
    newTrackButton.isIdle ∧ newTrackButton.glyph = .note ∧
    (∀ b b', ControlStep b .click b' → b.isIdle ∧ b'.isPending) ∧
    (∀ b e b', ControlStep b e b' → b'.isPending → e = .click ∧ b.isIdle) ∧
    (∀ b : ControlButton, b.isPending → b.disabled = true) ∧
    (∀ b b', ControlStep b (.resolve true) b' → b.isPending ∧ b'.isOk) ∧
    (∀ b b', ControlStep b (.resolve false) b' →
        b.isPending ∧ b'.isIdle ∧ b'.disabled = false) ∧
    (∀ b b', ControlStep b .grace b' → b.isOk ∧ b'.removed = true) ∧
    (∀ b e b', ControlStep b e b' → b'.isOk → b.isPending) ∧
    (∀ b : ControlButton, b.isPending → ¬∃ b', ControlStep b .click b') := by
  refine ⟨⟨rfl, rfl⟩, rfl, ?_, ?_, ?_, ?_, ?_, ?_, ?_, ?_⟩
  · intro b b' h
    cases h with
    | click h₁ h₂ => exact ⟨⟨h₁, h₂⟩, rfl, rfl, h₂⟩
  · intro b e b' h hp
    cases h with
    | click h₁ h₂ => exact ⟨rfl, h₁, h₂⟩
    | resolve s h₁ h₂ h₃ =>
      rcases s with _ | _ <;> simp [clickResume, ControlButton.isPending] at hp
    | grace h₁ h₂ => simp [graceRemove, ControlButton.isPending] at hp
  · exact fun b hp => hp.2.1
  · intro b b' h
    cases h with
    | resolve s h₁ h₂ h₃ => exact ⟨⟨h₁, h₂, h₃⟩, rfl, h₃⟩
  · intro b b' h
    cases h with
    | resolve s h₁ h₂ h₃ => exact ⟨⟨h₁, h₂, h₃⟩, ⟨rfl, h₃⟩, rfl⟩
  · intro b b' h
    cases h with
    | grace h₁ h₂ => exact ⟨⟨h₁, h₂⟩, rfl⟩
  · intro b e b' h hs
    cases h with
    | click h₁ h₂ => simp [clickStart, ControlButton.isOk] at hs
    | resolve s h₁ h₂ h₃ =>
      rcases s with _ | _
      · simp [clickResume, ControlButton.isOk] at hs
      · exact ⟨h₁, h₂, h₃⟩
    | grace h₁ h₂ => simp [graceRemove, ControlButton.isOk] at hs
  · rintro b hp ⟨b', h⟩
    cases h with
    | click h₁ h₂ => exact absurd hp.2.1 (by simp [h₁])

/-- Witness for `control_state_machine`: the full Idle → Pending →
Failure → Idle round trip at the concrete fresh button. -/
theorem control_state_machine_witness :
    ControlStep newTrackButton .click (clickStart newTrackButton) ∧
    (clickStart newTrackButton).isPending ∧
    (clickResume false (clickStart newTrackButton)).isIdle :=
  have hc : ControlStep newTrackButton .click (clickStart newTrackButton) :=
    .click newTrackButton rfl rfl
  have hr : ControlStep (clickStart newTrackButton) (.resolve false)
      (clickResume false (clickStart newTrackButton)) :=
    .resolve (clickStart newTrackButton) false rfl rfl rfl
  ⟨hc, (control_state_machine.2.2.1 _ _ hc).2,
    (control_state_machine.2.2.2.2.2.2.1 _ _ hr).2.1⟩

/-! ## DownloadOrchestrator: single-track download

`downloadTrack` (lines 154-192). -/

/-- Parsed JSON of the `/api/download-track` response; also the value
`downloadTrack` returns (on the payload branches it returns the parsed
object itself). -/
structure DownloadResult where
  success : Bool
  error : Option String
deriving Repr, DecidableEq

/-- Outcome of the awaited `apiRequest`: parsed payload or rejection
message. -/
abbrev DownloadOutcome := Except String DownloadResult

/-- The request body assembled in lines 166-174: `artist`, `title`,
`album` always; `album_id` and `track_number` only when truthy. -/
structure TrackRequestBody where
  artist : String
  title : String
  album : String
  album_id : Option String
  track_number : Option Nat
deriving Repr, DecidableEq

/-- Body construction: `if (albumId) requestData.album_id = albumId;
if (trackNumber) requestData.track_number = trackNumber;` — `null` and
the empty string are falsy, as is the number 0. -/
def downloadTrackBody (artist title album : String) (albumId : Option String)
    (trackNumber : Nat) : TrackRequestBody :=
  { artist := artist, title := title, album := album,
    album_id := jsStringOrNull albumId,
    track_number := if trackNumber = 0 then none else some trackNumber }

/-- The message of line 159. -/
def gmMissingMsg : String :=
  "Tampermonkey API not available. Please reinstall the userscript."

/-- `downloadTrack` as a function of the fetch outcome.  All branches
return a value (the `try`/`catch` of lines 165-191 converts every
rejection into `{success:false, error}`), so the embedding is total: no
exception escapes. -/
def downloadTrack (apiAvailable : Bool) (title : String)
    (resp : DownloadOutcome) : DownloadResult × List Notification :=
  if apiAvailable = false then
    ({ success := false, error := some gmMissingMsg },
      [{ message := gmMissingMsg, kind := .error }])
  else
    match resp with
    | .ok r =>
      if r.success then
        (r, [{ message := s!"Downloaded: {title}", kind := .success }])
      else
        (r, [{ message := s!"Failed: {title}", kind := .error }])
    | .error e =>
      ({ success := false, error := some e },
        [{ message := s!"Error: {e}", kind := .error }])

/-- A failing single-download outcome: rejected promise or a payload
with `success: false`. -/
def downloadFailed : DownloadOutcome → Prop
  | .error _ => True
  | .ok r => r.success = false

/-- C7: every failing `downloadTrack` call returns a value (no
exception escapes — the embedding is total) with `success = false`,
carrying the rejection message as `error` on the exception path and the
service payload verbatim on the non-success-payload path; it emits
exactly one error-kind notification; and feeding the result back into
the click handler's resume step moves any Pending control back to a
re-clickable Idle. -/
theorem downloadOne_failure_handling (apiAvailable : Bool) (title : String)
    (resp : DownloadOutcome) (hfail : downloadFailed resp) :
    ((downloadTrack apiAvailable title resp).1).success = false ∧
    (∃ n, (downloadTrack apiAvailable title resp).2 = [n] ∧
      n.kind = .error) ∧
    (∀ e, resp = .error e → apiAvailable = true →
      ((downloadTrack apiAvailable title resp).1).error = some e) ∧
    (∀ r, resp = .ok r → apiAvailable = true →
      (downloadTrack apiAvailable title resp).1 = r) ∧
    (∀ b : ControlButton, b.isPending →
      (clickResume ((downloadTrack apiAvailable title resp).1).success b).isIdle ∧
      (clickResume ((downloadTrack apiAvailable title resp).1).success b).disabled
        = false) := by
  rcases apiAvailable with _ | _
  · refine ⟨rfl, ⟨_, rfl, rfl⟩, ?_, ?_, ?_⟩
    · intro e he
      simp
    · intro r hr
      simp
    · intro b hb
      exact ⟨⟨rfl, hb.2.2⟩, rfl⟩
  · rcases resp with e | r
    · refine ⟨rfl, ⟨_, rfl, rfl⟩, ?_, ?_, ?_⟩
      · intro e' he' _
        simp only [Except.error.injEq] at he'
        subst he'
        rfl
      · intro r hr
        exact absurd hr (by simp)
      · intro b hb
        exact ⟨⟨rfl, hb.2.2⟩, rfl⟩
    · have hs : r.success = false := hfail
      refine ⟨?_, ?_, ?_, ?_, ?_⟩
      · simp [downloadTrack, hs]
      · exact ⟨{ message := s!"Failed: {title}", kind := .error },
          by simp [downloadTrack, hs], rfl⟩
      · intro e he
        exact absurd he (by simp)
      · intro r' hr' _
        simp only [Except.ok.injEq] at hr'
        subst hr'
        simp [downloadTrack, hs]
      · intro b hb
        have h1 : (downloadTrack true title (Except.ok r)).1 = r := by
          simp [downloadTrack, hs]
        rw [h1, hs]
        exact ⟨⟨rfl, hb.2.2⟩, rfl⟩

/-- Witness for `downloadOne_failure_handling`: Scenario D — the
service answers `{success:false, error:"not found"}`. -/
theorem downloadOne_failure_handling_witness :
    ((downloadTrack true "Enter Sandman"
        (.ok { success := false, error := some "not found" })).1).success
      = false ∧
    (clickResume ((downloadTrack true "Enter Sandman"
        (.ok { success := false, error := some "not found" })).1).success
      (clickStart newTrackButton)).isIdle :=
  have h := downloadOne_failure_handling true "Enter Sandman"
    (.ok { success := false, error := some "not found" }) rfl
  ⟨h.1, (h.2.2.2.2 (clickStart newTrackButton) ⟨rfl, rfl, rfl⟩).1⟩

/-! ## DownloadOrchestrator: album batch download

`downloadAlbum` (lines 234-262). -/

/-- A track object as held by the caller: the body map keeps only the
title. -/
structure AlbumTrack where
  title : String
  trackNumber : Nat
deriving Repr, DecidableEq

/-- Parsed JSON of the `/api/download-album` response; also the value
`downloadAlbum` returns.  Counts are absent on the error shape. -/
structure BatchResult where
  success : Bool
  total_tracks : Option Nat
  successful : Option Nat
  failed : Option Nat
  error : Option String
deriving Repr, DecidableEq

/-- The `/api/download-album` request body of lines 239-243: the track
list carries exactly the titles (`tracks.map(t => ({ title: t.title }))`). -/
structure AlbumRequestBody where
  artist : String
  album : String
  trackTitles : List String
deriving Repr, DecidableEq

/-- JavaScript `x > 0` on a possibly-absent count (`undefined > 0` is
false). -/
def jsGtZero : Option Nat → Bool
  | some k => decide (0 < k)
  | none => false

/-- The pre-request notification of line 236. -/
def startingNotif (album : String) (n : Nat) : Notification :=
  { message := s!"Starting: {album} ({n} tracks)", kind := .info }

/-- The aggregate notification message of line 248. -/
def completeMsg (r : BatchResult) : String :=
  s!"Complete: {r.successful} of {r.total_tracks} tracks"

/-- `downloadAlbum` as a function of the fetch outcome: the request
body it sends, the value it returns, and the notifications it emits in
order. -/
def downloadAlbum (artist album : String) (tracks : List AlbumTrack)
    (resp : Except String BatchResult) :
    AlbumRequestBody × BatchResult × List Notification :=
  let body : AlbumRequestBody :=
    { artist := artist, album := album,
      trackTitles := tracks.map fun t => t.title }
  let start := startingNotif album tracks.length
  match resp with
  | .ok result =>
    if result.success then
      (body, result,
        [start, { message := completeMsg result,
                  kind := if jsGtZero result.failed then .warning else .success }])
    else
      (body, result,
        [start, { message := s!"Failed: {result.error}", kind := .error }])
  | .error e =>
    (body,
      { success := false, total_tracks := none, successful := none,
        failed := none, error := some e },
      [start, { message := s!"Error: {e}", kind := .error }])

/-- C8: on a success-shaped batch response the request body carried
exactly the title of each track, the payload is returned to the caller
verbatim, and besides the pre-request informational notification
exactly one aggregate notification is emitted — warning-styled iff the
reported `failed` count is positive, success-styled otherwise. -/
theorem downloadMany_aggregate (artist album : String)
    (tracks : List AlbumTrack) (r : BatchResult) (hs : r.success = true) :
    (downloadAlbum artist album tracks (.ok r)).1.trackTitles
      = tracks.map (fun t => t.title) ∧
    (downloadAlbum artist album tracks (.ok r)).2.1 = r ∧
    (downloadAlbum artist album tracks (.ok r)).2.2
      = [startingNotif album tracks.length,
         { message := completeMsg r,
           kind := if jsGtZero r.failed then .warning else .success }] ∧
    ((downloadAlbum artist album tracks (.ok r)).2.2.filter
        fun n => n.kind != .info).length = 1 := by
  refine ⟨by simp [downloadAlbum, hs], by simp [downloadAlbum, hs], by simp [downloadAlbum, hs], ?_⟩
  rcases hf : jsGtZero r.failed with _ | _ <;>
    simp [downloadAlbum, hs, hf, startingNotif, List.filter] <;> rfl

/-- Witness for `downloadMany_aggregate`: Scenario E — five tracks,
`{successful:3, failed:2, total_tracks:5}` — yields the warning-styled
aggregate and the payload returned verbatim. -/
theorem downloadMany_aggregate_witness :
    (downloadAlbum "Artist" "Album"
        [⟨"t1", 1⟩, ⟨"t2", 2⟩, ⟨"t3", 3⟩, ⟨"t4", 4⟩, ⟨"t5", 5⟩]
        (.ok { success := true, total_tracks := some 5, successful := some 3,
               failed := some 2, error := none })).2.1
      = { success := true, total_tracks := some 5, successful := some 3,
          failed := some 2, error := none } ∧
    (downloadAlbum "Artist" "Album"
        [⟨"t1", 1⟩, ⟨"t2", 2⟩, ⟨"t3", 3⟩, ⟨"t4", 4⟩, ⟨"t5", 5⟩]
        (.ok { success := true, total_tracks := some 5, successful := some 3,
               failed := some 2, error := none })).1.trackTitles
      = ["t1", "t2", "t3", "t4", "t5"] :=
  have h := downloadMany_aggregate "Artist" "Album"
    [⟨"t1", 1⟩, ⟨"t2", 2⟩, ⟨"t3", 3⟩, ⟨"t4", 4⟩, ⟨"t5", 5⟩]
    { success := true, total_tracks := some 5, successful := some 3,
      failed := some 2, error := none } rfl
  ⟨h.2.1, h.1⟩

/-! ## C9: durable DOM writes

`updateTrackRowStatus` (lines 195-231) runs after a successful track
download: it removes the warning icon from the row's status cell,
appends a green check icon (styled with Lidarr's own icon class, not a
Blissful marker), and dims the whole row. -/

/-- A DOM element as far as the row update reads or writes it. -/
structure DomNode where
  className : String
  dataIcon : Option String
  color : Option String
  text : String
deriving Repr, DecidableEq

/-- The check icon constructed in lines 206-210: class
`Icon-icon-GFbI_`, `data-icon="check"`, green, `'✓'`. -/
def checkIcon : DomNode :=
  { className := "Icon-icon-GFbI_", dataIcon := some "check",
    color := some "#10b981", text := "✓" }

/-- `statusCell.querySelector('[data-icon="triangle-exclamation"]')`
followed by `.remove()`: drop the first matching child, if any. -/
def removeFirstWarning : List DomNode → List DomNode
  | [] => []
  | n :: rest =>
    if n.dataIcon = some "triangle-exclamation" then rest
    else n :: removeFirstWarning rest

/-- The host-DOM state of one track row that the update touches. -/
structure TrackRowDom where
  /-- children of the `TrackRow-status` cell. -/
  statusChildren : List DomNode
  /-- `row.style.opacity`, unset before the update. -/
  opacity : Option String
deriving Repr, DecidableEq

/-- The DOM mutations of `updateTrackRowStatus` (lines 199-214): remove
the warning icon, append the check icon, set `opacity` to `0.7`.  (The
function afterwards waits 3000 ms and forces a metadata refresh — cache
state, not DOM.) -/
def updateTrackRowStatusDom (row : TrackRowDom) : TrackRowDom :=
  { statusChildren := removeFirstWarning row.statusChildren ++ [checkIcon],
    opacity := some "0.7" }

/-- Split a class string into its whitespace-separated tokens. -/
def tokensAux : List Char → List Char → List (List Char)
  | [], acc => [acc.reverse]
  | c :: rest, acc =>
    if c = ' ' then acc.reverse :: tokensAux rest []
    else tokensAux rest (c :: acc)

/-- The class tokens of a node. -/
def classTokens (s : String) : List (List Char) := tokensAux s.data []

/-- Whether a node carries one of the two dedicated Blissful marker
classes the injectors use for their idempotence check. -/
def carriesBlissfulMarker (nd : DomNode) : Bool :=
  (classTokens nd.className).any fun cl =>
    cl == "blissful-album-icon".data || cl == "blissful-track-action-icon".data

/-- The warning icon of a missing track row. -/
def warnIcon : DomNode :=
  { className := "Icon-icon-GFbI_", dataIcon := some "triangle-exclamation",
    color := none, text := "" }

/-- A concrete missing track row before the update. -/
def missingRow : TrackRowDom :=
  { statusChildren := [warnIcon], opacity := none }

/-- C9 counterexample: the post-success row update durably alters host
nodes that are not injected controls — it changes the row's opacity
style, removes the host's warning icon, and appends a check icon that
carries no Blissful marker class.  The marker is therefore not the only
durable state written into the host page. -/
theorem rowUpdate_mutates_host :
    (updateTrackRowStatusDom missingRow).opacity ≠ missingRow.opacity ∧
    (updateTrackRowStatusDom missingRow).statusChildren = [checkIcon] ∧
    carriesBlissfulMarker checkIcon = false ∧
    warnIcon ∉ (updateTrackRowStatusDom missingRow).statusChildren := by
  refine ⟨by decide, by decide, by decide, by decide⟩

/-- C9 as amended: the injection passes write nothing durable but the
marker-carrying controls themselves — each cell pass either leaves the
cell untouched or adds exactly one control — while the post-success row
update additionally and durably removes the row's warning icon, appends
an unmarked check icon, and sets the row's opacity to `0.7`. -/
theorem durable_writes_characterized :
    (∀ (p : Bool) (c : AlbumSearchCell),
        (injectAlbumCell p c).1 = c ∨
        (injectAlbumCell p c).1 = { c with blissfulIcons := c.blissfulIcons + 1 }) ∧
    (∀ c : TrackActionCell,
        (injectTrackCell c).1 = c ∨
        (injectTrackCell c).1 = { c with blissfulIcons := c.blissfulIcons + 1 }) ∧
    (∀ row : TrackRowDom,
        (updateTrackRowStatusDom row).opacity = some "0.7" ∧
        (updateTrackRowStatusDom row).statusChildren
          = removeFirstWarning row.statusChildren ++ [checkIcon]) ∧
    carriesBlissfulMarker checkIcon = false := by
  refine ⟨?_, ?_, fun row => ⟨rfl, rfl⟩, by decide⟩
  · intro p c
    rcases injectAlbumCell_shape p c with h | ⟨h0, h⟩
    · exact Or.inl (by rw [h])
    · right
      rw [h, h0]
  · intro c
    rcases injectTrackCell_shape c with h | ⟨h0, h⟩
    · exact Or.inl (by rw [h])
    · right
      rw [h, h0]

end Blissful
